import Mathlib

/-!
Verification of the loan-offer service core
(`src/unnamed/part_000`, `src/config/config.js`, `src/utils/responseHelper.js`).

Shallow embedding conventions:
- JavaScript numbers are modelled by `JSNum`: an exact rational for every
  finite value, plus the IEEE special values `nan`, `inf` (+Infinity) and
  `ninf` (-Infinity).  Finite arithmetic is exact rational arithmetic (the
  idealisation of binary64); the special-value propagation rules of the
  operations used by the source (`+`, `-`, `*`, `/`, `Math.pow` on integer
  exponents, `Math.round`, `Math.max`, `<`) follow ECMAScript.  Signed
  zeros are not distinguished (no code path here depends on them).
- JavaScript field values are modelled by `JSValue` (string, number,
  boolean, null); an absent field (`undefined`) is `Option.none`.
- `tenure`/`termMonths` arguments of the calculator and scheduler are
  modelled as `Int` (the loop counter and `Math.pow` exponent are integers
  in every use; the validator separately checks the request's tenure).
-/

/-- A JavaScript number: exact rational for finite values, plus NaN and
the two infinities. -/
inductive JSNum where
  | num (q : ℚ)
  | nan
  | inf
  | ninf
deriving DecidableEq

namespace JSNum

/-- JavaScript `+` on numbers. -/
def add : JSNum → JSNum → JSNum
  | nan, _ => nan
  | _, nan => nan
  | inf, ninf => nan
  | ninf, inf => nan
  | inf, _ => inf
  | _, inf => inf
  | ninf, _ => ninf
  | _, ninf => ninf
  | num a, num b => num (a + b)

/-- JavaScript `-` on numbers. -/
def sub : JSNum → JSNum → JSNum
  | nan, _ => nan
  | _, nan => nan
  | inf, inf => nan
  | ninf, ninf => nan
  | inf, _ => inf
  | _, inf => ninf
  | ninf, _ => ninf
  | _, ninf => inf
  | num a, num b => num (a - b)

/-- JavaScript `*` on numbers (`0 * ±Infinity = NaN`). -/
def mul : JSNum → JSNum → JSNum
  | nan, _ => nan
  | _, nan => nan
  | inf, inf => inf
  | inf, ninf => ninf
  | ninf, inf => ninf
  | ninf, ninf => inf
  | inf, num b => if b = 0 then nan else if 0 < b then inf else ninf
  | num a, inf => if a = 0 then nan else if 0 < a then inf else ninf
  | ninf, num b => if b = 0 then nan else if 0 < b then ninf else inf
  | num a, ninf => if a = 0 then nan else if 0 < a then ninf else inf
  | num a, num b => num (a * b)

/-- JavaScript `/` on numbers (`0/0 = NaN`, `x/0 = ±Infinity` for
nonzero finite `x`). -/
def div : JSNum → JSNum → JSNum
  | nan, _ => nan
  | _, nan => nan
  | inf, inf => nan
  | inf, ninf => nan
  | ninf, inf => nan
  | ninf, ninf => nan
  | inf, num b => if 0 ≤ b then inf else ninf
  | ninf, num b => if 0 ≤ b then ninf else inf
  | num _, inf => num 0
  | num _, ninf => num 0
  | num a, num b =>
      if b = 0 then (if a = 0 then nan else if 0 < a then inf else ninf)
      else num (a / b)

end JSNum

/-- `q ^ m` on rationals by structural recursion (kernel-evaluable form of
`Monoid.npow`). -/
def qnpow (q : ℚ) : Nat → ℚ
  | 0 => 1
  | m + 1 => qnpow q m * q

/-- `q ^ n` for an integer exponent (kernel-evaluable form of `zpow`). -/
def qzpow (q : ℚ) (n : Int) : ℚ :=
  if 0 ≤ n then qnpow q n.toNat else (qnpow q (-n).toNat)⁻¹

/-- JavaScript `Math.pow` restricted to integer exponents (the only
exponents the source passes are loan terms).  `pow(x, 0) = 1` for every
`x`, including NaN and the infinities, and `pow(0, n) = Infinity` for
`n < 0`, per ECMAScript. -/
def JSNum.pow (x : JSNum) (n : Int) : JSNum :=
  if n = 0 then JSNum.num 1
  else
    match x with
    | JSNum.nan => JSNum.nan
    | JSNum.inf => if 0 < n then JSNum.inf else JSNum.num 0
    | JSNum.ninf =>
        if 0 < n then (if n % 2 = 0 then JSNum.inf else JSNum.ninf) else JSNum.num 0
    | JSNum.num q => if q = 0 ∧ n < 0 then JSNum.inf else JSNum.num (qzpow q n)

/-- JavaScript `Math.round`: `floor(x + 1/2)` on finite values, identity
on NaN and the infinities. -/
def jsRound : JSNum → JSNum
  | JSNum.num q => JSNum.num ((⌊q + 1/2⌋ : ℤ) : ℚ)
  | x => x

/-- The source's 2-decimal rounding idiom `Math.round(x * 100) / 100`. -/
def round2 (x : JSNum) : JSNum :=
  (jsRound (x.mul (JSNum.num 100))).div (JSNum.num 100)

/-- JavaScript `Math.max` on two numbers (NaN-propagating). -/
def jsMax : JSNum → JSNum → JSNum
  | JSNum.nan, _ => JSNum.nan
  | _, JSNum.nan => JSNum.nan
  | JSNum.inf, _ => JSNum.inf
  | _, JSNum.inf => JSNum.inf
  | JSNum.ninf, y => y
  | x, JSNum.ninf => x
  | JSNum.num a, JSNum.num b => JSNum.num (max a b)

/-- JavaScript `<` on numbers (false whenever either side is NaN). -/
def jsLt : JSNum → JSNum → Bool
  | JSNum.nan, _ => false
  | _, JSNum.nan => false
  | JSNum.inf, _ => false
  | _, JSNum.inf => true
  | JSNum.ninf, JSNum.ninf => false
  | JSNum.ninf, _ => true
  | _, JSNum.ninf => false
  | JSNum.num a, JSNum.num b => decide (a < b)

/-- `calculateEMI` from `src/unnamed/part_000` lines 166-175:
`monthlyRate = roi / (12 * 100)`;
`emi = principal * monthlyRate * (1+monthlyRate)^tenure /
       ((1+monthlyRate)^tenure - 1)`, rounded to 2 decimals. -/
def calculateEMI (principal roi : JSNum) (tenure : Int) : JSNum :=
  let monthlyRate := roi.div (JSNum.num (12 * 100))
  let emi := ((principal.mul monthlyRate).mul
                (((JSNum.num 1).add monthlyRate).pow tenure)).div
             ((((JSNum.num 1).add monthlyRate).pow tenure).sub (JSNum.num 1))
  round2 emi

/-- One row of the amortization schedule, as pushed by
`generateAmortizationSchedule` (fields `month`, `emi`, `principalPaid`,
`interestPaid`, `balance`). -/
structure AmortizationEntry where
  month : Nat
  emi : JSNum
  principalPaid : JSNum
  interestPaid : JSNum
  balance : JSNum
deriving DecidableEq

/-- Body of the `for (let month = 1; month <= tenure; month++)` loop of
`generateAmortizationSchedule`: `n` remaining iterations, current `month`
index and running (unrounded) `balance`. -/
def scheduleAux (emi monthlyRate : JSNum) : Nat → Nat → JSNum → List AmortizationEntry
  | 0, _, _ => []
  | n + 1, month, balance =>
    let interest := balance.mul monthlyRate
    let principalPaid := emi.sub interest
    let balance2 := balance.sub principalPaid
    { month := month
      emi := round2 emi
      principalPaid := round2 principalPaid
      interestPaid := round2 interest
      balance := jsMax (JSNum.num 0) (round2 balance2) }
      :: scheduleAux emi monthlyRate n (month + 1) balance2

/-- `generateAmortizationSchedule` from `src/unnamed/part_000` lines
185-207: computes the EMI once, then iterates the reducing-balance
recurrence for `tenure` months starting from `balance = principal`. -/
def generateAmortizationSchedule (principal roi : JSNum) (tenure : Int) :
    List AmortizationEntry :=
  scheduleAux (calculateEMI principal roi tenure)
    (roi.div (JSNum.num (12 * 100))) tenure.toNat 1 principal

/-! ### Evaluation infrastructure

Structural equality on `ℚ` via the `num`/`den` projections, so that
concrete runs of the embedded program can be checked by kernel
reduction (the derived `DecidableEq ℚ` does not reduce well). -/

/-- Projection-based boolean equality on `ℚ`. -/
def qeq (a b : ℚ) : Bool := a.num == b.num && a.den == b.den

/-- Projection-based boolean equality on `JSNum`. -/
def JSNum.beq : JSNum → JSNum → Bool
  | JSNum.num a, JSNum.num b => qeq a b
  | JSNum.nan, JSNum.nan => true
  | JSNum.inf, JSNum.inf => true
  | JSNum.ninf, JSNum.ninf => true
  | _, _ => false

/-- Projection-based boolean equality on schedule entries. -/
def AmortizationEntry.beq (e f : AmortizationEntry) : Bool :=
  e.month == f.month && e.emi.beq f.emi && e.principalPaid.beq f.principalPaid
    && e.interestPaid.beq f.interestPaid && e.balance.beq f.balance

/-- Projection-based boolean equality on optional numbers. -/
def optNumBeq : Option JSNum → Option JSNum → Bool
  | none, none => true
  | some a, some b => a.beq b
  | _, _ => false

/-- Projection-based boolean equality on optional schedule entries. -/
def optEntryBeq : Option AmortizationEntry → Option AmortizationEntry → Bool
  | none, none => true
  | some a, some b => a.beq b
  | _, _ => false

/-- Projection-based boolean equality on lists of numbers. -/
def listNumBeq : List JSNum → List JSNum → Bool
  | [], [] => true
  | a :: as, b :: bs => a.beq b && listNumBeq as bs
  | _, _ => false

/-! ### Configuration (`src/config/config.js`)

Only the constants the core logic reads are embedded.  `minRoi` is the
source's `5.5`, written `11/2`. -/

namespace config

def errorCodes.invalidToken : String := "E001"

def errorCodes.missingParameters : String := "E002"

def errorCodes.invalidLoanAmount : String := "E003"

def errorCodes.invalidTenure : String := "E004"

def errorCodes.serverError : String := "E999"

def statusCodes.success : String := "SR"

def statusCodes.error : String := "ER"

def loan.minAmount : ℚ := 10000

def loan.maxAmount : ℚ := 10000000

def loan.minTenure : ℚ := 3

def loan.maxTenure : ℚ := 84

def loan.minRoi : ℚ := 11/2

def loan.maxRoi : ℚ := 24

end config

/-! ### Request values and the validator (`src/unnamed/part_000`) -/

/-- A primitive JavaScript field value as it can appear in the request's
field map.  An absent field (`undefined`) is `Option.none` at the use
sites. -/
inductive JSValue where
  | vstr (s : String)
  | vnum (x : JSNum)
  | vbool (b : Bool)
  | vnull
deriving DecidableEq

/-- The loan-request field map.  `validateLoanRequest` and
`processLoanOffer` read exactly these nine keys; further keys of the
JavaScript object are never read, so they are not represented. -/
structure LoanData where
  orderId : Option JSValue
  transactionId : Option JSValue
  loanAmount : Option JSValue
  roi : Option JSValue
  tenure : Option JSValue
  downpayment : Option JSValue
  processingFee : Option JSValue
  tvsTransactionId : Option JSValue
  backRedirectionURL : Option JSValue
deriving DecidableEq

/-- `data[field] === undefined || data[field] === null` — the presence
test of the required-field loop. -/
def isMissing : Option JSValue → Bool
  | none => true
  | some JSValue.vnull => true
  | _ => false

/-- The `requiredFields` array of `validateLoanRequest`, in source
order, paired with the corresponding accessor. -/
def requiredFieldList : List (String × (LoanData → Option JSValue)) :=
  [("orderId", LoanData.orderId),
   ("transactionId", LoanData.transactionId),
   ("loanAmount", LoanData.loanAmount),
   ("roi", LoanData.roi),
   ("tenure", LoanData.tenure),
   ("downpayment", LoanData.downpayment),
   ("processingFee", LoanData.processingFee),
   ("tvsTransactionId", LoanData.tvsTransactionId)]

/-- The first required field reported missing by the
`for (const field of requiredFields)` loop, if any. -/
def firstMissing (data : LoanData) : Option String :=
  (requiredFieldList.find? fun p => isMissing (p.2 data)).map Prod.fst

/-- `/^ORD[0-9]{6,10}$/.test s`: the whole string is `ORD` followed by
6 to 10 decimal digits. -/
def orderIdMatches (s : String) : Bool :=
  match s.toList with
  | 'O' :: 'R' :: 'D' :: ds => 6 ≤ ds.length && ds.length ≤ 10 && ds.all Char.isDigit
  | _ => false

/-- `/^TXN[0-9]{4,12}$/.test s`: the whole string is `TXN` followed by
4 to 12 decimal digits. -/
def transactionIdMatches (s : String) : Bool :=
  match s.toList with
  | 'T' :: 'X' :: 'N' :: ds => 4 ≤ ds.length && ds.length ≤ 12 && ds.all Char.isDigit
  | _ => false

/-- `config.validation.orderIdRegex.test(data.orderId)`.  `RegExp.test`
coerces its argument to a string; the coercions of numbers, booleans,
`null` and `undefined` (`"123"`, `"true"`, `"false"`, `"null"`,
`"undefined"`) can never match a pattern anchored as `^ORD…$`, so every
non-string value tests false. -/
def testOrderId : Option JSValue → Bool
  | some (JSValue.vstr s) => orderIdMatches s
  | _ => false

/-- `config.validation.transactionIdRegex.test(data.transactionId)`;
non-string values test false as in `testOrderId`. -/
def testTransactionId : Option JSValue → Bool
  | some (JSValue.vstr s) => transactionIdMatches s
  | _ => false

/-- `typeof v === "number"` (NaN and the infinities are numbers). -/
def isNumberValue : Option JSValue → Bool
  | some (JSValue.vnum _) => true
  | _ => false

/-- The numeric value of a field; only read under an `isNumberValue`
guard (the source's `||` short-circuits before comparing non-numbers). -/
def toNum : Option JSValue → JSNum
  | some (JSValue.vnum x) => x
  | _ => JSNum.nan

/-- The validator's result object: `{isValid, errorCode, message}` on
failure, `{isValid: true, message: ""}` (no `errorCode` key) on
success. -/
structure ValidationResult where
  isValid : Bool
  errorCode : Option String
  message : String
deriving DecidableEq

def failResult (code msg : String) : ValidationResult := ⟨false, some code, msg⟩

def okResult : ValidationResult := ⟨true, none, ""⟩

/-- The loan-amount check's condition:
`typeof data.loanAmount !== "number" || data.loanAmount < minAmount ||
data.loanAmount > maxAmount` (short-circuiting, so the comparisons only
run on numbers). -/
def badLoanAmount (data : LoanData) : Bool :=
  !isNumberValue data.loanAmount
    || jsLt (toNum data.loanAmount) (JSNum.num config.loan.minAmount)
    || jsLt (JSNum.num config.loan.maxAmount) (toNum data.loanAmount)

/-- The tenure check's condition. -/
def badTenure (data : LoanData) : Bool :=
  !isNumberValue data.tenure
    || jsLt (toNum data.tenure) (JSNum.num config.loan.minTenure)
    || jsLt (JSNum.num config.loan.maxTenure) (toNum data.tenure)

/-- The ROI check's condition. -/
def badRoi (data : LoanData) : Bool :=
  !isNumberValue data.roi
    || jsLt (toNum data.roi) (JSNum.num config.loan.minRoi)
    || jsLt (JSNum.num config.loan.maxRoi) (toNum data.roi)

/-- The downpayment check's condition:
`typeof data.downpayment !== "number" || data.downpayment < 0`. -/
def badDownpayment (data : LoanData) : Bool :=
  !isNumberValue data.downpayment || jsLt (toNum data.downpayment) (JSNum.num 0)

/-- `validateLoanRequest` from `src/unnamed/part_000` lines 28-115.
The interpolated bound values in the messages are inlined from
`config.loan` (`5.5` and `24.0` print as `5.5` and `24`). -/
def validateLoanRequest (data : LoanData) : ValidationResult :=
  match firstMissing data with
  | some field =>
      failResult config.errorCodes.missingParameters
        ("Missing required parameter: " ++ field)
  | none =>
    if !testOrderId data.orderId then
      failResult config.errorCodes.missingParameters "Order ID format is invalid"
    else if !testTransactionId data.transactionId then
      failResult config.errorCodes.missingParameters "Transaction ID format is invalid"
    else if badLoanAmount data then
      failResult config.errorCodes.invalidLoanAmount
        "Loan amount must be between 10000 and 10000000"
    else if badTenure data then
      failResult config.errorCodes.invalidTenure "Tenure must be between 3 and 84 months"
    else if badRoi data then
      failResult config.errorCodes.missingParameters "ROI must be between 5.5% and 24%"
    else if badDownpayment data then
      failResult config.errorCodes.missingParameters "Downpayment must be a non-negative number"
    else okResult

/-! ### The spec's description of the validator (§4.1): a fixed ordered
rule list, returning the first failure.  Each rule reuses the very
check the source performs; what this formulation pins down is the
order and the first-failure (short-circuit) semantics. -/

/-- Rule 1 (spec order): required-field presence. -/
def presenceRule (data : LoanData) : Option ValidationResult :=
  (firstMissing data).map fun field =>
    failResult config.errorCodes.missingParameters
      ("Missing required parameter: " ++ field)

/-- Rule 2 (spec order): orderId format. -/
def orderIdRule (data : LoanData) : Option ValidationResult :=
  if !testOrderId data.orderId then
    some (failResult config.errorCodes.missingParameters "Order ID format is invalid")
  else none

/-- Rule 3 (spec order): transactionId format. -/
def transactionIdRule (data : LoanData) : Option ValidationResult :=
  if !testTransactionId data.transactionId then
    some (failResult config.errorCodes.missingParameters "Transaction ID format is invalid")
  else none

/-- Rule 4 (spec order): loanAmount numeric and in range. -/
def loanAmountRule (data : LoanData) : Option ValidationResult :=
  if badLoanAmount data then
    some (failResult config.errorCodes.invalidLoanAmount
      "Loan amount must be between 10000 and 10000000")
  else none

/-- Rule 5 (spec order): tenure numeric and in range. -/
def tenureRule (data : LoanData) : Option ValidationResult :=
  if badTenure data then
    some (failResult config.errorCodes.invalidTenure "Tenure must be between 3 and 84 months")
  else none

/-- Rule 6 (spec order): roi numeric and in range. -/
def roiRule (data : LoanData) : Option ValidationResult :=
  if badRoi data then
    some (failResult config.errorCodes.missingParameters "ROI must be between 5.5% and 24%")
  else none

/-- Rule 7 (spec order): downpayment numeric and non-negative. -/
def downpaymentRule (data : LoanData) : Option ValidationResult :=
  if badDownpayment data then
    some (failResult config.errorCodes.missingParameters
      "Downpayment must be a non-negative number")
  else none

/-- First failing rule of an ordered rule-outcome list; success when no
rule fails. -/
def firstFailing : List (Option ValidationResult) → ValidationResult
  | [] => okResult
  | some r :: _ => r
  | none :: rest => firstFailing rest

/-- The validator as §4.1 describes it: the fixed, ordered,
short-circuiting rule sequence, returning only the first failure. -/
def specOrderedValidate (data : LoanData) : ValidationResult :=
  firstFailing
    [presenceRule data, orderIdRule data, transactionIdRule data, loanAmountRule data,
     tenureRule data, roiRule data, downpaymentRule data]

/-! ### The evaluator (`processLoanOffer`) and response shapes
(`src/utils/responseHelper.js`) -/

/-- The response object actually produced by `processLoanOffer`: both
`successResponse` and `errorResponse` wrap a
`{errorMessage, errorCode, redirectionURL}` data payload. -/
structure Response where
  errorMessage : String
  errorCode : String
  redirectionURL : String
  statusMessage : String
  statusCode : String
deriving DecidableEq

def responseHelper.errorResponse (errorCode errorMessage : String) : Response :=
  { errorMessage := errorMessage
    errorCode := errorCode
    redirectionURL := ""
    statusMessage := "Error"
    statusCode := config.statusCodes.error }

def responseHelper.authError (errorMessage : String) : Response :=
  responseHelper.errorResponse config.errorCodes.invalidToken errorMessage

def responseHelper.successResponse (errorMessage errorCode redirectionURL : String) :
    Response :=
  { errorMessage := errorMessage
    errorCode := errorCode
    redirectionURL := redirectionURL
    statusMessage := "Success"
    statusCode := config.statusCodes.success }

/-- The complete request object handed to `processLoanOffer`:
`requestData.token` and `requestData.data`. -/
structure RequestData where
  token : Option JSValue
  data : LoanData
deriving DecidableEq

/-- `validateToken` from `src/unnamed/part_000` lines 14-20:
`token && token.length >= 32`.  A falsy token fails the `&&` guard and
a non-string token has no `length` property (`undefined >= 32` is
false), so exactly the strings of length ≥ 32 pass. -/
def validateToken : Option JSValue → Bool
  | some (JSValue.vstr s) => decide (32 ≤ s.length)
  | _ => false

/-- `requestData.data.backRedirectionURL || ""` for a string-or-absent
redirect URL field. -/
def backRedirectionOrEmpty : Option JSValue → String
  | some (JSValue.vstr s) => if s = "" then "" else s
  | _ => ""

/-- Instrumentation: the core operations `processLoanOffer` can invoke,
recorded in call order. -/
inductive CoreCall where
  | tokenCheck
  | validateRequest
  | emiCalc
  | scheduleGen
deriving DecidableEq

/-- `processLoanOffer` from `src/unnamed/part_000` lines 123-156,
paired with the trace of core calls it performs.  The `catch` branch
(`serverError`) is unreachable here: with an object-valued `data` field
map, `validateToken` and `validateLoanRequest` are total and throw
nothing.  On the success path the source returns `successResponse` with
the empty-string payload and the optional redirect URL; it never calls
`calculateEMI` or `generateAmortizationSchedule`. -/
def processLoanOfferTr (requestData : RequestData) : Response × List CoreCall :=
  if !validateToken requestData.token then
    (responseHelper.authError "Invalid or expired token", [CoreCall.tokenCheck])
  else
    let validationResult := validateLoanRequest requestData.data
    if !validationResult.isValid then
      (responseHelper.errorResponse (validationResult.errorCode.getD "")
          validationResult.message,
        [CoreCall.tokenCheck, CoreCall.validateRequest])
    else
      (responseHelper.successResponse "" ""
          (backRedirectionOrEmpty requestData.data.backRedirectionURL),
        [CoreCall.tokenCheck, CoreCall.validateRequest])

/-- The response component of `processLoanOffer`. -/
def processLoanOffer (requestData : RequestData) : Response :=
  (processLoanOfferTr requestData).1

/-! ### Concrete fixtures used in witnesses and counterexamples -/

/-- A request field map passing every validation rule. -/
def validData : LoanData :=
  { orderId := some (JSValue.vstr "ORD123456")
    transactionId := some (JSValue.vstr "TXN1234")
    loanAmount := some (JSValue.vnum (JSNum.num 100000))
    roi := some (JSValue.vnum (JSNum.num 12))
    tenure := some (JSValue.vnum (JSNum.num 12))
    downpayment := some (JSValue.vnum (JSNum.num 0))
    processingFee := some (JSValue.vnum (JSNum.num 100))
    tvsTransactionId := some (JSValue.vstr "TVS0001")
    backRedirectionURL := none }

/-- An entirely empty field map (every field `undefined`). -/
def emptyData : LoanData :=
  ⟨none, none, none, none, none, none, none, none, none⟩

/-- `validData`, except the orderId is `"ORD123"` (5 digits where the
regex requires 6-10). -/
def ord123Data : LoanData := { validData with orderId := some (JSValue.vstr "ORD123") }

/-- `validData`, except the transactionId is `"TXN12"` (too few digits). -/
def badTxnData : LoanData :=
  { validData with transactionId := some (JSValue.vstr "TXN12") }

/-- `validData`, except the loanAmount 5000 is below the configured
minimum 10000. -/
def lowAmountData : LoanData :=
  { validData with loanAmount := some (JSValue.vnum (JSNum.num 5000)) }

/-- `validData`, except the tenure 100 exceeds the configured maximum 84. -/
def badTenureData : LoanData :=
  { validData with tenure := some (JSValue.vnum (JSNum.num 100)) }

/-- `validData`, except the roi 30 exceeds the configured maximum 24. -/
def badRoiData : LoanData := { validData with roi := some (JSValue.vnum (JSNum.num 30)) }

/-- `validData`, except the downpayment is negative. -/
def badDownData : LoanData :=
  { validData with downpayment := some (JSValue.vnum (JSNum.num (-1))) }

/-- A 32-character token, accepted by `validateToken`. -/
def token32 : String := "abcdefgh12345678abcdefgh12345678"

/-- `lowAmountData` with the orderId additionally missing: the presence
check fires before the amount check is ever reached. -/
def lowAmountMissingOrder : LoanData := { lowAmountData with orderId := none }

/-- The sum of the `principalPaid` column of a schedule (JavaScript
summation in list order). -/
def sumPrincipalPaid (schedule : List AmortizationEntry) : JSNum :=
  schedule.foldl (fun acc e => acc.add e.principalPaid) (JSNum.num 0)

/-- The reported `balance` of a schedule's last entry, if any. -/
def finalBalance (schedule : List AmortizationEntry) : Option JSNum :=
  schedule.getLast?.map AmortizationEntry.balance

/-- The first entry of the reference schedule
`generateAmortizationSchedule(100000, 12, 12)`: emi 8884.88,
principalPaid 7884.88, interestPaid 1000.00, balance 92115.12. -/
def refEntry1 : AmortizationEntry :=
  { month := 1
    emi := JSNum.num (222122/25)
    principalPaid := JSNum.num (197122/25)
    interestPaid := JSNum.num 1000
    balance := JSNum.num (2302878/25) }

set_option maxRecDepth 8000

/-! ## Infrastructure lemmas -/

theorem qeq_iff (a b : ℚ) : qeq a b = true ↔ a = b := by
  constructor
  · intro h
    have h1 := (Bool.and_eq_true _ _).mp h
    exact Rat.ext (by exact_mod_cast beq_iff_eq.mp h1.1) (beq_iff_eq.mp h1.2)
  · intro h
    subst h
    simp [qeq]

theorem jsNumBeq_iff (x y : JSNum) : JSNum.beq x y = true ↔ x = y := by
  cases x <;> cases y <;> simp [JSNum.beq, qeq_iff]

theorem entryBeq_iff (e f : AmortizationEntry) :
    AmortizationEntry.beq e f = true ↔ e = f := by
  cases e
  cases f
  simp [AmortizationEntry.beq, jsNumBeq_iff, AmortizationEntry.mk.injEq, and_assoc]

theorem optNumBeq_iff (x y : Option JSNum) : optNumBeq x y = true ↔ x = y := by
  cases x <;> cases y <;> simp [optNumBeq, jsNumBeq_iff]

theorem optEntryBeq_iff (x y : Option AmortizationEntry) : optEntryBeq x y = true ↔ x = y := by
  cases x <;> cases y <;> simp [optEntryBeq, entryBeq_iff]

theorem listNumBeq_iff (xs ys : List JSNum) : listNumBeq xs ys = true ↔ xs = ys := by
  induction xs generalizing ys with
  | nil => cases ys <;> simp [listNumBeq]
  | cons a as ih => cases ys <;> simp [listNumBeq, jsNumBeq_iff, ih]

theorem JSNum.add_num (a b : ℚ) :
    JSNum.add (JSNum.num a) (JSNum.num b) = JSNum.num (a + b) := rfl

theorem JSNum.sub_num (a b : ℚ) :
    JSNum.sub (JSNum.num a) (JSNum.num b) = JSNum.num (a - b) := rfl

theorem JSNum.mul_num (a b : ℚ) :
    JSNum.mul (JSNum.num a) (JSNum.num b) = JSNum.num (a * b) := rfl

theorem JSNum.div_num (a b : ℚ) (h : b ≠ 0) :
    JSNum.div (JSNum.num a) (JSNum.num b) = JSNum.num (a / b) := by
  simp [JSNum.div, h]

theorem qnpow_eq (q : ℚ) (m : Nat) : qnpow q m = q ^ m := by
  induction m with
  | zero => simp [qnpow]
  | succ k ih => simp [qnpow, ih, pow_succ]

theorem qzpow_eq (q : ℚ) (n : Int) : qzpow q n = q ^ n := by
  cases n with
  | ofNat m =>
      simp [qzpow, qnpow_eq]
  | negSucc m =>
      have h : ¬(0 ≤ Int.negSucc m) := not_le.mpr (Int.negSucc_lt_zero m)
      have h2 : (-Int.negSucc m).toNat = m + 1 := rfl
      rw [qzpow, if_neg h, h2, qnpow_eq, zpow_negSucc]

theorem JSNum.pow_num (q : ℚ) (n : Int) (h : ¬(q = 0 ∧ n < 0)) :
    JSNum.pow (JSNum.num q) n = JSNum.num (q ^ n) := by
  unfold JSNum.pow
  by_cases h0 : n = 0
  · subst h0
    simp
  · simp [h0, h, qzpow_eq]

theorem round2_num (q : ℚ) :
    round2 (JSNum.num q) = JSNum.num ((⌊q * 100 + 1/2⌋ : ℤ) / 100) := by
  have h : (100:ℚ) ≠ 0 := by norm_num
  simp [round2, JSNum.mul_num, jsRound, JSNum.div_num _ _ h]

theorem round2_nan : round2 JSNum.nan = JSNum.nan := rfl

theorem round2_inf : round2 JSNum.inf = JSNum.inf := by
  norm_num [round2, JSNum.mul, jsRound, JSNum.div]

theorem round2_ninf : round2 JSNum.ninf = JSNum.ninf := by
  norm_num [round2, JSNum.mul, jsRound, JSNum.div]

theorem floor_intCast_add_half (k : ℤ) : ⌊(k : ℚ) + 1/2⌋ = k := by
  rw [Int.floor_int_add]
  have : ⌊(1/2 : ℚ)⌋ = 0 := by
    rw [Int.floor_eq_zero_iff]
    constructor <;> norm_num
  omega

theorem round2_idem (x : JSNum) : round2 (round2 x) = round2 x := by
  cases x with
  | num q =>
      rw [round2_num, round2_num]
      congr 1
      have h : ((⌊q * 100 + 1/2⌋ : ℤ) : ℚ) / 100 * 100 + 1/2 =
          ((⌊q * 100 + 1/2⌋ : ℤ) : ℚ) + 1/2 := by
        rw [div_mul_cancel₀]
        norm_num
      rw [h, floor_intCast_add_half]
  | nan => rw [round2_nan, round2_nan]
  | inf => rw [round2_inf, round2_inf]
  | ninf => rw [round2_ninf, round2_ninf]

theorem calculateEMI_def (principal roi : JSNum) (tenure : Int) :
    calculateEMI principal roi tenure =
      round2 (((principal.mul (roi.div (JSNum.num (12 * 100)))).mul
          (((JSNum.num 1).add (roi.div (JSNum.num (12 * 100)))).pow tenure)).div
        ((((JSNum.num 1).add (roi.div (JSNum.num (12 * 100)))).pow tenure).sub
          (JSNum.num 1))) := rfl

theorem round2_calculateEMI (principal roi : JSNum) (tenure : Int) :
    round2 (calculateEMI principal roi tenure) = calculateEMI principal roi tenure := by
  rw [calculateEMI_def]
  exact round2_idem _

theorem scheduleAux_get?_emi (emi0 monthlyRate : JSNum) :
    ∀ (n month : Nat) (balance : JSNum) (i : Nat) (e : AmortizationEntry),
      (scheduleAux emi0 monthlyRate n month balance).get? i = some e →
      e.emi = round2 emi0 := by
  intro n
  induction n with
  | zero =>
      intro month balance i e h
      simp [scheduleAux] at h
  | succ k ih =>
      intro month balance i e h
      cases i with
      | zero =>
          simp [scheduleAux] at h
          rw [← h]
      | succ j =>
          simp only [scheduleAux, List.get?_cons_succ] at h
          exact ih _ _ _ _ h

theorem jsMax_zero_num (x : JSNum) (q : ℚ) (h : jsMax (JSNum.num 0) x = JSNum.num q) :
    0 ≤ q := by
  cases x with
  | num a =>
      simp [jsMax] at h
      rw [← h]
      exact le_max_left 0 a
  | nan => simp [jsMax] at h
  | inf => simp [jsMax] at h
  | ninf =>
      simp [jsMax] at h
      rw [← h]

theorem scheduleAux_get?_balance_nonneg (emi0 monthlyRate : JSNum) :
    ∀ (n month : Nat) (balance : JSNum) (i : Nat) (e : AmortizationEntry) (q : ℚ),
      (scheduleAux emi0 monthlyRate n month balance).get? i = some e →
      e.balance = JSNum.num q → 0 ≤ q := by
  intro n
  induction n with
  | zero =>
      intro month balance i e q h _
      simp [scheduleAux] at h
  | succ k ih =>
      intro month balance i e q h hb
      cases i with
      | zero =>
          simp [scheduleAux] at h
          rw [← h] at hb
          exact jsMax_zero_num _ _ hb
      | succ j =>
          simp only [scheduleAux, List.get?_cons_succ] at h
          exact ih _ _ _ _ _ h hb

/-! ## Claim theorems -/

/-- Claim C5: `calculateEMI` computes the standard reducing-balance
formula with `monthlyRate = annualRatePercent / 1200` and the result
rounded to 2 decimal places (for positive rate and term, where the
formula's divisions are non-degenerate); in particular
`calculateEMI(100000, 12, 12)` returns exactly `8884.88`. -/
theorem emi_formula_and_reference :
    (∀ (p r : ℚ) (t : Int), 0 < r → 0 < t →
      calculateEMI (JSNum.num p) (JSNum.num r) t =
        round2 (JSNum.num
          (p * (r / 1200) * (1 + r / 1200) ^ t / ((1 + r / 1200) ^ t - 1)))) ∧
    calculateEMI (JSNum.num 100000) (JSNum.num 12) 12 = JSNum.num (888488/100) := by
  constructor
  · intro p r t hr ht
    have h1200 : ((12 * 100 : ℚ)) ≠ 0 := by norm_num
    have hrdiv : JSNum.div (JSNum.num r) (JSNum.num (12 * 100)) = JSNum.num (r / 1200) := by
      rw [JSNum.div_num _ _ h1200]
      norm_num
    have hbase1 : (0:ℚ) < r / 1200 := by positivity
    have hbase : (1:ℚ) < 1 + r / 1200 := by linarith
    have hbne : (1 + r / 1200 : ℚ) ≠ 0 := by linarith
    have hpownat : (1 + r / 1200 : ℚ) ^ t = (1 + r / 1200) ^ t.toNat := by
      conv_lhs => rw [show t = (t.toNat : Int) from (Int.toNat_of_nonneg (le_of_lt ht)).symm]
      exact zpow_natCast _ _
    have hpowgt : 1 < (1 + r / 1200 : ℚ) ^ t := by
      rw [hpownat]
      exact one_lt_pow₀ hbase (by omega)
    have hden : ((1 + r / 1200 : ℚ) ^ t - 1) ≠ 0 := sub_ne_zero.mpr (ne_of_gt hpowgt)
    rw [calculateEMI_def, hrdiv, JSNum.add_num,
      JSNum.pow_num _ _ (by rintro ⟨h0, h1⟩; exact hbne h0),
      JSNum.mul_num, JSNum.mul_num, JSNum.sub_num, JSNum.div_num _ _ hden]
  · exact (jsNumBeq_iff _ _).mp (by with_unfolding_all decide)

/-- Witness for C5 at `(100000, 12, 12)`. -/
theorem emi_formula_and_reference_witness :
    calculateEMI (JSNum.num 100000) (JSNum.num 12) 12 =
      round2 (JSNum.num
        (100000 * ((12:ℚ) / 1200) * (1 + (12:ℚ) / 1200) ^ (12:Int) /
          ((1 + (12:ℚ) / 1200) ^ (12:Int) - 1))) :=
  emi_formula_and_reference.1 100000 12 12 (by norm_num) (by norm_num)

/-- Claim C6: for all inputs, every entry of the schedule produced by
`generateAmortizationSchedule` carries exactly `calculateEMI`'s value in
its `emi` field (re-rounding an already-rounded EMI is the identity). -/
theorem emi_matches_every_entry (principal roi : JSNum) (tenure : Int) (i : Nat)
    (e : AmortizationEntry)
    (h : (generateAmortizationSchedule principal roi tenure).get? i = some e) :
    e.emi = calculateEMI principal roi tenure := by
  unfold generateAmortizationSchedule at h
  have h2 := scheduleAux_get?_emi _ _ _ _ _ _ _ h
  rw [round2_calculateEMI] at h2
  exact h2

/-- Witness for C6: the first entry of the `(100000, 12, 12)` schedule
carries `emi = 8884.88 = calculateEMI(100000, 12, 12)`. -/
theorem emi_matches_every_entry_witness :
    (generateAmortizationSchedule (JSNum.num 100000) (JSNum.num 12) 12).get? 0 =
      some refEntry1 ∧
    refEntry1.emi = calculateEMI (JSNum.num 100000) (JSNum.num 12) 12 := by
  have h : (generateAmortizationSchedule (JSNum.num 100000) (JSNum.num 12) 12).get? 0 =
      some refEntry1 := (optEntryBeq_iff _ _).mp (by with_unfolding_all decide)
  exact ⟨h, emi_matches_every_entry _ _ _ 0 refEntry1 h⟩

/-- Claim C7: `generateAmortizationSchedule` is deterministic and
idempotent — it is a pure function of `(principal, rate, term)` alone,
so any two calls with identical inputs return identical ordered entry
sequences. -/
theorem scheduler_deterministic (principal roi : JSNum) (tenure : Int) :
    generateAmortizationSchedule principal roi tenure =
      generateAmortizationSchedule principal roi tenure ∧
    ∀ (p2 r2 : JSNum) (t2 : Int), p2 = principal → r2 = roi → t2 = tenure →
      generateAmortizationSchedule p2 r2 t2 =
        generateAmortizationSchedule principal roi tenure :=
  ⟨rfl, fun _ _ _ h1 h2 h3 => by rw [h1, h2, h3]⟩

/-- Witness for C7 at `(100000, 12, 12)`. -/
theorem scheduler_deterministic_witness :
    generateAmortizationSchedule (JSNum.num 100000) (JSNum.num 12) 12 =
      generateAmortizationSchedule (JSNum.num 100000) (JSNum.num 12) 12 :=
  (scheduler_deterministic (JSNum.num 100000) (JSNum.num 12) 12).2
    (JSNum.num 100000) (JSNum.num 12) 12 rfl rfl rfl

/-- Claim C1 counterexample: `calculateEMI` returns NaN for the numeric
input `(100000, 0, 12)` — there is no InvalidInput failure path — and
`generateAmortizationSchedule` still produces a full 12-entry
(degenerate) schedule for the same non-positive rate. -/
theorem calculateEMI_nan_counterexample :
    calculateEMI (JSNum.num 100000) (JSNum.num 0) 12 = JSNum.nan ∧
    (generateAmortizationSchedule (JSNum.num 100000) (JSNum.num 0) 12).length = 12 :=
  ⟨(jsNumBeq_iff _ _).mp (by with_unfolding_all decide), by with_unfolding_all decide⟩

/-- Claim C1 (amended): `calculateEMI` and
`generateAmortizationSchedule` perform no input validation and have no
InvalidInput error path.  A zero rate makes `calculateEMI` return NaN
and the scheduler emit a full-length schedule of NaN `principalPaid`
entries; a zero term makes `calculateEMI` return Infinity and the
scheduler return an empty schedule. -/
theorem calculator_degenerate_inputs :
    calculateEMI (JSNum.num 100000) (JSNum.num 0) 12 = JSNum.nan ∧
    (generateAmortizationSchedule (JSNum.num 100000) (JSNum.num 0) 3).map
        AmortizationEntry.principalPaid = [JSNum.nan, JSNum.nan, JSNum.nan] ∧
    calculateEMI (JSNum.num 100000) (JSNum.num 12) 0 = JSNum.inf ∧
    generateAmortizationSchedule (JSNum.num 100000) (JSNum.num 12) 0 = [] :=
  ⟨(jsNumBeq_iff _ _).mp (by with_unfolding_all decide),
    (listNumBeq_iff _ _).mp (by with_unfolding_all decide),
    (jsNumBeq_iff _ _).mp (by with_unfolding_all decide), rfl⟩

/-- Claim C4 counterexample: at the in-bounds input `(100000, 12, 12)`
the summed `principalPaid` is `100000.03` — off from the principal by 3
cents, not within 1 cent — and at the in-bounds input
`(9999999, 24, 84)` the final entry's `remainingBalance` is `0.67`, not
`0.00`. -/
theorem schedule_drift_counterexample :
    (config.loan.minAmount ≤ 100000 ∧ (100000:ℚ) ≤ config.loan.maxAmount ∧
      config.loan.minRoi ≤ 12 ∧ (12:ℚ) ≤ config.loan.maxRoi ∧
      config.loan.minTenure ≤ 12 ∧ (12:ℚ) ≤ config.loan.maxTenure) ∧
    sumPrincipalPaid (generateAmortizationSchedule (JSNum.num 100000) (JSNum.num 12) 12) =
      JSNum.num (10000003/100) ∧
    ¬(|(10000003/100 : ℚ) - 100000| ≤ 1/100) ∧
    (config.loan.minAmount ≤ 9999999 ∧ (9999999:ℚ) ≤ config.loan.maxAmount ∧
      config.loan.minRoi ≤ 24 ∧ (24:ℚ) ≤ config.loan.maxRoi ∧
      config.loan.minTenure ≤ 84 ∧ (84:ℚ) ≤ config.loan.maxTenure) ∧
    finalBalance (generateAmortizationSchedule (JSNum.num 9999999) (JSNum.num 24) 84) =
      some (JSNum.num (67/100)) ∧
    (67/100 : ℚ) ≠ 0 := by
  refine ⟨by with_unfolding_all decide,
    (jsNumBeq_iff _ _).mp (by with_unfolding_all decide),
    ?_,
    by with_unfolding_all decide,
    (optNumBeq_iff _ _).mp (by with_unfolding_all decide),
    by norm_num⟩
  have h3 : ((10000003:ℚ)/100 - 100000) = 3/100 := by norm_num
  rw [h3, abs_of_nonneg (by norm_num : (0:ℚ) ≤ 3/100)]
  norm_num

/-- Claim C4 (amended): rounding the EMI and each period's figures to
whole cents makes the schedule drift: the summed `principalPaid` can
differ from the principal by more than one cent and the final reported
balance can be positive.  What does hold: every reported balance is
clamped non-negative, and at the reference input `(100000, 12, 12)` the
final entry's `remainingBalance` is exactly `0.00` with the summed
`principalPaid` equal to `100000.03` (within 3 cents of the
principal). -/
theorem schedule_rounding_drift :
    (∀ (principal roi : JSNum) (tenure : Int) (i : Nat) (e : AmortizationEntry) (q : ℚ),
        (generateAmortizationSchedule principal roi tenure).get? i = some e →
        e.balance = JSNum.num q → 0 ≤ q) ∧
    finalBalance (generateAmortizationSchedule (JSNum.num 100000) (JSNum.num 12) 12) =
      some (JSNum.num 0) ∧
    sumPrincipalPaid (generateAmortizationSchedule (JSNum.num 100000) (JSNum.num 12) 12) =
      JSNum.num (10000003/100) ∧
    |(10000003/100 : ℚ) - 100000| ≤ 3/100 := by
  refine ⟨?_, (optNumBeq_iff _ _).mp (by with_unfolding_all decide),
    (jsNumBeq_iff _ _).mp (by with_unfolding_all decide), ?_⟩
  swap
  · have h3 : ((10000003:ℚ)/100 - 100000) = 3/100 := by norm_num
    rw [h3, abs_of_nonneg (by norm_num : (0:ℚ) ≤ 3/100)]
  intro p roi t i e q h hq
  unfold generateAmortizationSchedule at h
  exact scheduleAux_get?_balance_nonneg _ _ _ _ _ _ _ _ h hq

/-- Witness for C4 (amended), at the first entry of the reference
schedule: reported balance `92115.12 ≥ 0`. -/
theorem schedule_rounding_drift_witness :
    (generateAmortizationSchedule (JSNum.num 100000) (JSNum.num 12) 12).get? 0 =
      some refEntry1 ∧
    refEntry1.balance = JSNum.num (2302878/25) ∧
    (0:ℚ) ≤ 2302878/25 := by
  have h : (generateAmortizationSchedule (JSNum.num 100000) (JSNum.num 12) 12).get? 0 =
      some refEntry1 := (optEntryBeq_iff _ _).mp (by with_unfolding_all decide)
  exact ⟨h, rfl, schedule_rounding_drift.1 _ _ _ 0 refEntry1 (2302878/25) h rfl⟩

/-- Claim C3: `validateLoanRequest` runs its checks in the fixed
short-circuiting order — required-field presence, orderId format,
transactionId format, loanAmount range, tenure range, roi range,
downpayment non-negativity — returning only the first failing rule
(refinement against the spec's ordered rule list), and any request
missing a required field gets the MissingParameter result before any
format or range check can fire. -/
theorem validator_fixed_order (data : LoanData) :
    validateLoanRequest data = specOrderedValidate data ∧
    ∀ f, firstMissing data = some f →
      validateLoanRequest data =
        failResult config.errorCodes.missingParameters
          ("Missing required parameter: " ++ f) := by
  constructor
  · unfold validateLoanRequest specOrderedValidate presenceRule orderIdRule
      transactionIdRule loanAmountRule tenureRule roiRule downpaymentRule
    cases h : firstMissing data
    · simp only [h, Option.map_none']
      cases h1 : testOrderId data.orderId <;>
      cases h2 : testTransactionId data.transactionId <;>
      cases h3 : badLoanAmount data <;>
      cases h4 : badTenure data <;>
      cases h5 : badRoi data <;>
      cases h6 : badDownpayment data <;>
      simp [firstFailing, h1, h2, h3, h4, h5, h6]
    · simp [h, firstFailing]
  · intro f hf
    unfold validateLoanRequest
    rw [hf]

/-- Witness for C3: the all-empty request is rejected for its first
missing field, `orderId`. -/
theorem validator_fixed_order_witness :
    firstMissing emptyData = some "orderId" ∧
    validateLoanRequest emptyData =
      failResult config.errorCodes.missingParameters
        ("Missing required parameter: " ++ "orderId") := by
  have h : firstMissing emptyData = some "orderId" := by with_unfolding_all decide
  exact ⟨h, (validator_fixed_order emptyData).2 "orderId" h⟩

/-- Claim C9: `validateLoanRequest` is total over all field maps —
including null, undefined and non-string field values — always
returning a `ValidationResult` (the success value, or a failure whose
`errorCode` is one of the three codes the validator can emit); in this
embedding every JavaScript operation it performs on arbitrary field
values is total, so no exception can cross its boundary. -/
theorem validator_total_and_classified (data : LoanData) :
    validateLoanRequest data = okResult ∨
    ((validateLoanRequest data).isValid = false ∧
      ((validateLoanRequest data).errorCode = some config.errorCodes.missingParameters ∨
       (validateLoanRequest data).errorCode = some config.errorCodes.invalidLoanAmount ∨
       (validateLoanRequest data).errorCode = some config.errorCodes.invalidTenure)) := by
  unfold validateLoanRequest
  cases h : firstMissing data
  · simp only [h]
    cases h1 : testOrderId data.orderId <;>
    cases h2 : testTransactionId data.transactionId <;>
    cases h3 : badLoanAmount data <;>
    cases h4 : badTenure data <;>
    cases h5 : badRoi data <;>
    cases h6 : badDownpayment data <;>
    simp [h1, h2, h3, h4, h5, h6, failResult, okResult]
  · simp only [h]
    right
    simp [failResult]

/-- Claim C2 counterexample: an orderId of `"ORD123"` (5 digits where
the regex requires 6-10) is rejected with error code `E002` — the very
missing-parameter code, not a distinct InvalidFormat code — and an
out-of-range roi is likewise rejected with `E002`, not a distinct
InvalidRate code. -/
theorem format_error_code_counterexample :
    validateLoanRequest ord123Data =
      failResult config.errorCodes.missingParameters "Order ID format is invalid" ∧
    validateLoanRequest badRoiData =
      failResult config.errorCodes.missingParameters "ROI must be between 5.5% and 24%" ∧
    config.errorCodes.missingParameters = "E002" :=
  ⟨by with_unfolding_all decide, by with_unfolding_all decide, rfl⟩

/-- Claim C2 (amended): only the amount and tenure rules carry
category-specific error codes (`E003` invalidLoanAmount, `E004`
invalidTenure); orderId-format, transactionId-format, roi-range and
downpayment failures all reuse the missing-parameters code `E002` — the
failure category is distinguished by the message, not the code. -/
theorem validator_errorCode_assignment :
    validateLoanRequest ord123Data =
      failResult config.errorCodes.missingParameters "Order ID format is invalid" ∧
    validateLoanRequest badTxnData =
      failResult config.errorCodes.missingParameters "Transaction ID format is invalid" ∧
    validateLoanRequest lowAmountData =
      failResult config.errorCodes.invalidLoanAmount
        "Loan amount must be between 10000 and 10000000" ∧
    validateLoanRequest badTenureData =
      failResult config.errorCodes.invalidTenure "Tenure must be between 3 and 84 months" ∧
    validateLoanRequest badRoiData =
      failResult config.errorCodes.missingParameters "ROI must be between 5.5% and 24%" ∧
    validateLoanRequest badDownData =
      failResult config.errorCodes.missingParameters
        "Downpayment must be a non-negative number" ∧
    validateLoanRequest emptyData =
      failResult config.errorCodes.missingParameters "Missing required parameter: orderId" ∧
    config.errorCodes.missingParameters ≠ config.errorCodes.invalidLoanAmount ∧
    config.errorCodes.missingParameters ≠ config.errorCodes.invalidTenure := by
  refine ⟨?_, ?_, ?_, ?_, ?_, ?_, ?_, ?_, ?_⟩ <;> with_unfolding_all decide

/-- Claim C8 counterexample: an authenticated request whose loanAmount
(5000) is below the configured minimum but whose orderId is missing is
rejected with the missing-parameter code `E002`, not the InvalidAmount
code — the amount rule is never reached, so "every authenticated
request with a below-minimum loanAmount → InvalidAmount" fails as
stated. -/
theorem low_amount_rejection_counterexample :
    validateToken (some (JSValue.vstr token32)) = true ∧
    lowAmountMissingOrder.loanAmount = some (JSValue.vnum (JSNum.num 5000)) ∧
    (5000:ℚ) < config.loan.minAmount ∧
    processLoanOffer ⟨some (JSValue.vstr token32), lowAmountMissingOrder⟩ =
      responseHelper.errorResponse config.errorCodes.missingParameters
        "Missing required parameter: orderId" ∧
    (processLoanOffer ⟨some (JSValue.vstr token32), lowAmountMissingOrder⟩).errorCode ≠
      config.errorCodes.invalidLoanAmount := by
  refine ⟨?_, rfl, ?_, ?_, ?_⟩ <;> with_unfolding_all decide

/-- Claim C8 (amended): on any validation failure (token accepted),
`processLoanOffer` returns exactly
`errorResponse(validationResult.errorCode, validationResult.message)`
and never invokes the EMI calculator or the scheduler; and an
authenticated request that passes the presence and format checks with a
numeric loanAmount below the configured minimum is rejected with the
InvalidAmount code `E003`. -/
theorem rejection_carries_validator_error :
    (∀ req : RequestData, validateToken req.token = true →
      (validateLoanRequest req.data).isValid = false →
      processLoanOffer req =
        responseHelper.errorResponse ((validateLoanRequest req.data).errorCode.getD "")
          (validateLoanRequest req.data).message ∧
      CoreCall.emiCalc ∉ (processLoanOfferTr req).2 ∧
      CoreCall.scheduleGen ∉ (processLoanOfferTr req).2) ∧
    (∀ (req : RequestData) (q : ℚ), validateToken req.token = true →
      firstMissing req.data = none →
      testOrderId req.data.orderId = true →
      testTransactionId req.data.transactionId = true →
      req.data.loanAmount = some (JSValue.vnum (JSNum.num q)) →
      q < config.loan.minAmount →
      (processLoanOffer req).errorCode = config.errorCodes.invalidLoanAmount ∧
      (processLoanOffer req).statusCode = config.statusCodes.error) := by
  constructor
  · intro req ht hv
    have hfold : processLoanOfferTr req =
        (responseHelper.errorResponse ((validateLoanRequest req.data).errorCode.getD "")
          (validateLoanRequest req.data).message,
         [CoreCall.tokenCheck, CoreCall.validateRequest]) := by
      unfold processLoanOfferTr
      simp [ht, hv]
    refine ⟨?_, ?_, ?_⟩
    · unfold processLoanOffer
      rw [hfold]
    · rw [hfold]
      simp
    · rw [hfold]
      simp
  · intro req q ht hmiss hord htxn hamt hlow
    have hbad : badLoanAmount req.data = true := by
      unfold badLoanAmount
      rw [hamt]
      simp [isNumberValue, toNum, jsLt, hlow]
    have hval : validateLoanRequest req.data =
        failResult config.errorCodes.invalidLoanAmount
          "Loan amount must be between 10000 and 10000000" := by
      unfold validateLoanRequest
      rw [hmiss]
      simp [hord, htxn, hbad]
    have hfold : processLoanOfferTr req =
        (responseHelper.errorResponse config.errorCodes.invalidLoanAmount
          "Loan amount must be between 10000 and 10000000",
         [CoreCall.tokenCheck, CoreCall.validateRequest]) := by
      unfold processLoanOfferTr
      simp [ht, hval, failResult, responseHelper.errorResponse]
    unfold processLoanOffer
    rw [hfold]
    exact ⟨rfl, rfl⟩

/-- Witness for C8 (amended) at an authenticated request with
loanAmount 5000 (below the minimum 10000) and all other fields valid:
the rejection carries the validator's error and the InvalidAmount code
`E003`. -/
theorem rejection_carries_validator_error_witness :
    processLoanOffer ⟨some (JSValue.vstr token32), lowAmountData⟩ =
      responseHelper.errorResponse
        ((validateLoanRequest lowAmountData).errorCode.getD "")
        (validateLoanRequest lowAmountData).message ∧
    (processLoanOffer ⟨some (JSValue.vstr token32), lowAmountData⟩).errorCode =
      config.errorCodes.invalidLoanAmount := by
  refine ⟨(rejection_carries_validator_error.1 ⟨some (JSValue.vstr token32), lowAmountData⟩
      ?_ ?_).1,
    (rejection_carries_validator_error.2 ⟨some (JSValue.vstr token32), lowAmountData⟩ 5000
      ?_ ?_ ?_ ?_ rfl ?_).1⟩ <;> with_unfolding_all decide

/-- Claim C10: `processLoanOffer` checks the authentication token
before validating loan data — for every request whose token is absent
or a string shorter than 32 characters it returns the invalid-token
auth error (code E001), the loan-data validator is never consulted
(trace is just the token check), and the outcome is the same whatever
the loan data is. -/
theorem token_checked_before_validation (req : RequestData)
    (h : req.token = none ∨ ∃ s, req.token = some (JSValue.vstr s) ∧ s.length < 32) :
    processLoanOffer req = responseHelper.authError "Invalid or expired token" ∧
    (processLoanOffer req).errorCode = config.errorCodes.invalidToken ∧
    (processLoanOfferTr req).2 = [CoreCall.tokenCheck] ∧
    ∀ d : LoanData, processLoanOffer ⟨req.token, d⟩ = processLoanOffer req := by
  have hv : validateToken req.token = false := by
    rcases h with h | ⟨s, hs, hlen⟩
    · rw [h]
      rfl
    · rw [hs]
      simp [validateToken]
      omega
  have h1 : processLoanOfferTr req =
      (responseHelper.authError "Invalid or expired token", [CoreCall.tokenCheck]) := by
    unfold processLoanOfferTr
    simp [hv]
  refine ⟨?_, ?_, ?_, ?_⟩
  · unfold processLoanOffer
    rw [h1]
  · unfold processLoanOffer
    rw [h1]
    rfl
  · rw [h1]
  · intro d
    have h2 : processLoanOfferTr ⟨req.token, d⟩ =
        (responseHelper.authError "Invalid or expired token", [CoreCall.tokenCheck]) := by
      unfold processLoanOfferTr
      simp [hv]
    unfold processLoanOffer
    rw [h1, h2]

/-- Witness for C10: the absent token is rejected with the auth error
and the validator is never consulted. -/
theorem token_checked_before_validation_witness :
    processLoanOffer ⟨none, validData⟩ =
      responseHelper.authError "Invalid or expired token" ∧
    (processLoanOfferTr ⟨none, validData⟩).2 = [CoreCall.tokenCheck] := by
  have h := token_checked_before_validation ⟨none, validData⟩ (Or.inl rfl)
  exact ⟨h.1, h.2.2.1⟩
